import Mathlib

/-!
Shallow embedding of the deal-scoring engine of the pechincha-standvirtual
repository, together with proofs checking the natural-language specification
against it.

Main sources embedded:
- src/app/api/settings/recalculate/route.ts : time-decay weights, weighted
  percentile, component scores, price-drop bonus, the per-listing blend and
  the batch driver loop;
- src/app/api/settings/weights/route.ts : the weights-update handler.

Numbers are modelled as rationals (JS arithmetic on these code paths stays
within exactly representable ranges for the properties below), timestamps as
integer milliseconds, and nullable fields as Option.
-/

namespace Pechincha

/-- JS `x || d` for a possibly-absent number: `undefined`, `null` and `0` are
falsy, so they all coalesce to the default. -/
def jsOrNum (v : Option ℚ) (d : ℚ) : ℚ :=
  match v with
  | none => d
  | some x => if x = 0 then d else x

/-- JS `s || d` for a possibly-absent string: `undefined`, `null` and the
empty string are falsy. -/
def jsOrStr (v : Option String) (d : String) : String :=
  match v with
  | none => d
  | some s => if s = "" then d else s

/-- JS `toUpperCase` on the ASCII values these code paths compare against:
uppercase character by character (`String.toUpper` is the same map, but this
form evaluates by kernel reduction). -/
def jsToUpper (s : String) : String := String.mk (s.data.map Char.toUpper)

/-- JS `toLowerCase`, character by character, as for `jsToUpper`. -/
def jsToLower (s : String) : String := String.mk (s.data.map Char.toLower)

/-- JS `Math.round`: round half toward positive infinity. -/
def jround (x : ℚ) : ℤ :=
  ⌊x + 1 / 2⌋

/-- JS `Math.round(x * 10) / 10`: round to one decimal place. -/
def round1 (x : ℚ) : ℚ :=
  (jround (x * 10) : ℚ) / 10

/-- Milliseconds in a day, the divisor `1000 * 60 * 60 * 24`. -/
def msPerDay : ℤ := 86400000

/-- `Math.floor((now - t) / msPerDay)` on millisecond timestamps; JS
`Math.floor` of a real quotient is flooring division, `Int.fdiv`. -/
def daysDiffFloor (now t : ℤ) : ℤ :=
  Int.fdiv (now - t) msPerDay

/-- recalculate/route.ts, `getTimeDecayWeight` (lines 44-57): decay weight
from the `lastSeenAt` timestamp.  `TIME_DECAY_WEIGHTS` is inlined
(1.0 / 0.75 / 0.5). -/
def getTimeDecayWeight (now : ℤ) (lastSeenAt : Option ℤ) : ℚ :=
  match lastSeenAt with
  | none => 0
  | some t =>
    let daysDiff := daysDiffFloor now t
    if daysDiff < 0 then 1
    else if daysDiff ≤ 30 then 1
    else if daysDiff ≤ 60 then 3 / 4
    else if daysDiff ≤ 90 then 1 / 2
    else 0

/-- recalculate/route.ts, lines 125-127: the weight a listing contributes to
its segment: `1.0` when active, otherwise the time-decay weight. -/
def contributionWeight (now : ℤ) (isActive : Bool) (lastSeenAt : Option ℤ) : ℚ :=
  if isActive then 1 else getTimeDecayWeight now lastSeenAt

/-- recalculate/route.ts, lines 125-139: the segment entry a listing adds to
its cohort; `if (weight === 0) continue` drops zero-weight listings. -/
def segmentEntry (now : ℤ) (isActive : Bool) (lastSeenAt : Option ℤ)
    (price : ℚ) : Option (ℚ × ℚ) :=
  let weight := contributionWeight now isActive lastSeenAt
  if weight = 0 then none else some (price, weight)

/-- recalculate/route.ts, `calculateWeightedPercentile` (lines 60-89).
The JS loop over the array sorted ascending by price accumulates
`totalWeight` as the sum of all weights and `belowWeight` as the sum of the
weight of entries priced strictly below plus half the weight of entries
priced exactly equal; the loop is rendered as the two sums it computes. -/
def calculateWeightedPercentile (price : ℚ)
    (segmentPrices : List (ℚ × ℚ)) : ℤ :=
  if segmentPrices = [] then 50
  else
    let sorted := segmentPrices.mergeSort (fun a b => a.1 ≤ b.1)
    let totalWeight := (sorted.map (fun item => item.2)).sum
    let belowWeight := (sorted.map (fun item =>
      if item.1 < price then item.2
      else if item.1 = price then item.2 / 2
      else 0)).sum
    if totalWeight = 0 then 50
    else jround (100 - belowWeight / totalWeight * 100)

/-- The price-vs-segment score as the specification words it: sum the weight
strictly below the price plus half the weight exactly equal, divide by the
total weight, and return `round(100 - percentile)`; empty or zero-total
segments give the neutral 50.  Stated over the raw (unsorted) multiset. -/
def specPriceVsSegmentScore (price : ℚ)
    (segmentPrices : List (ℚ × ℚ)) : ℤ :=
  let totalWeight := (segmentPrices.map (fun item => item.2)).sum
  if totalWeight = 0 then 50
  else
    let belowWeight := (segmentPrices.map (fun item =>
      if item.1 < price then item.2
      else if item.1 = price then item.2 / 2
      else 0)).sum
    jround (100 - belowWeight / totalWeight * 100)

/-- recalculate/route.ts, `EXPECTED_MILEAGE_PER_YEAR` (lines 16-23): expected
km/year by fuel type; absent keys give `undefined`, rendered as `none`. -/
def EXPECTED_MILEAGE_PER_YEAR (fuel : String) : Option ℚ :=
  if fuel = "diesel" then some 20000
  else if fuel = "gasoline" then some 12000
  else if fuel = "electric" then some 15000
  else if fuel = "hybrid" then some 15000
  else if fuel = "plug-in-hybrid" then some 15000
  else if fuel = "lpg" then some 18000
  else none

/-- The three per-listing component scores of
recalculate/route.ts, `calculateComponentScores`. -/
structure ComponentScores where
  priceEvaluation : ℚ
  mileageQuality : ℚ
  pricePerKm : ℚ
deriving Repr, DecidableEq

/-- recalculate/route.ts, `calculateComponentScores`, first block
(lines 259-270): the market-evaluation score.  JS truthiness:
`listing.priceEvaluation || ""` coalesces null to the empty string before
`toUpperCase`. -/
def priceEvaluationScore (priceEvaluation : Option String) : ℚ :=
  let priceEval := jsToUpper (jsOrStr priceEvaluation "")
  if priceEval = "BELOW" then 100
  else if priceEval = "IN" then 50
  else if priceEval = "ABOVE" then 10
  else 50

/-- recalculate/route.ts, `calculateComponentScores`, second block
(lines 272-302): the fuel-adjusted mileage-quality score.  JS truthiness:
`if (listing.year && listing.mileage)` is false when either is 0 or null;
`listing.fuelType || "gasoline"` coalesces null and "" to "gasoline";
`EXPECTED_MILEAGE_PER_YEAR[fuelType] || EXPECTED_MILEAGE_PER_YEAR["gasoline"]`
coalesces a missing key to the gasoline rate 12000. -/
def mileageQualityScore (currentYear : ℤ) (year : ℤ) (mileage : Option ℤ)
    (fuelType : Option String) : ℚ :=
  match mileage with
  | none => 50
  | some m =>
    if year ≠ 0 ∧ m ≠ 0 then
      let carAge := max 1 (currentYear - year)
      let fuel := jsToLower (jsOrStr fuelType "gasoline")
      let expectedPerYear := jsOrNum (EXPECTED_MILEAGE_PER_YEAR fuel) 12000
      let expectedMileage := (carAge : ℚ) * expectedPerYear
      let mileageRatio := if expectedMileage > 0 then (m : ℚ) / expectedMileage else 1
      if mileageRatio ≤ 0.4 then 100
      else if mileageRatio ≤ 0.6 then 90
      else if mileageRatio ≤ 0.8 then 80
      else if mileageRatio ≤ 1.0 then 70
      else if mileageRatio ≤ 1.2 then 55
      else if mileageRatio ≤ 1.4 then 40
      else if mileageRatio ≤ 1.6 then 25
      else 10
    else 50

/-- recalculate/route.ts, `calculateComponentScores`, third block
(lines 304-324): the price-per-km score.  JS truthiness:
`listing.mileage && listing.mileage > 0` holds exactly for a present positive
mileage. -/
def pricePerKmScore (price : ℚ) (mileage : Option ℤ) : ℚ :=
  match mileage with
  | none => 50
  | some m =>
    if 0 < m then
      let pricePerKm := price / (m : ℚ)
      if pricePerKm ≤ 0.05 then 100
      else if pricePerKm ≤ 0.08 then 90
      else if pricePerKm ≤ 0.12 then 75
      else if pricePerKm ≤ 0.18 then 60
      else if pricePerKm ≤ 0.25 then 45
      else if pricePerKm ≤ 0.35 then 30
      else 15
    else 50

/-- recalculate/route.ts, `calculateComponentScores` (lines 246-331),
assembling its three independent blocks.  `currentYear` stands for
`new Date().getFullYear()`. -/
def calculateComponentScores (currentYear : ℤ) (priceEvaluation : Option String)
    (year : ℤ) (mileage : Option ℤ) (price : ℚ) (fuelType : Option String) :
    ComponentScores :=
  { priceEvaluation := priceEvaluationScore priceEvaluation,
    mileageQuality := mileageQualityScore currentYear year mileage fuelType,
    pricePerKm := pricePerKmScore price mileage }

/-- recalculate/route.ts, `calculatePriceDropScores`, per-listing body
(lines 198-233 together with the no-history default of lines 236-240): the
price-history records of one listing, most recent first, each a price and an
optional `recordedAt` millisecond timestamp. -/
def calculatePriceDropScore (now : ℤ) (prices : List (ℚ × Option ℤ)) : ℚ :=
  match prices with
  | (currentPrice, recordedAt) :: (previousPrice, _) :: _ =>
    let priceChange := (currentPrice - previousPrice) / previousPrice * 100
    if 0 ≤ priceChange then 0
    else
      let dropPercent := |priceChange|
      let daysSinceChange : ℤ :=
        match recordedAt with
        | some t => daysDiffFloor now t
        | none => 30
      if dropPercent ≥ 20 ∧ daysSinceChange ≤ 7 then 100
      else if dropPercent ≥ 10 ∧ daysSinceChange ≤ 14 then 80
      else if dropPercent ≥ 5 ∧ daysSinceChange ≤ 30 then 60
      else if dropPercent > 0 ∧ daysSinceChange ≤ 30 then 40
      else 0
  | _ => 0

/-- The four blend weights (types file, `TAlgorithmWeights`). -/
structure TAlgorithmWeights where
  priceVsSegment : ℚ
  priceEvaluation : ℚ
  mileageQuality : ℚ
  pricePerKm : ℚ
deriving Repr, DecidableEq

/-- The default weights of the types file, `DEFAULT_WEIGHTS`. -/
def DEFAULT_WEIGHTS : TAlgorithmWeights :=
  { priceVsSegment := 0.35, priceEvaluation := 0.25,
    mileageQuality := 0.25, pricePerKm := 0.15 }

/-- weights/route.ts, line 43-47: the sum the handler validates. -/
def weightsTotal (w : TAlgorithmWeights) : ℚ :=
  w.priceVsSegment + w.priceEvaluation + w.mileageQuality + w.pricePerKm

/-- weights/route.ts, `WeightsSchema` (lines 7-14): zod requires each of the
four fields to be a number within `[0, 1]`. -/
def weightsSchemaOk (w : TAlgorithmWeights) : Prop :=
  (0 ≤ w.priceVsSegment ∧ w.priceVsSegment ≤ 1) ∧
  (0 ≤ w.priceEvaluation ∧ w.priceEvaluation ≤ 1) ∧
  (0 ≤ w.mileageQuality ∧ w.mileageQuality ≤ 1) ∧
  (0 ≤ w.pricePerKm ∧ w.pricePerKm ≤ 1)

instance (w : TAlgorithmWeights) : Decidable (weightsSchemaOk w) := by
  unfold weightsSchemaOk; infer_instance

/-- weights/route.ts, `POST` (lines 37-89), as a transition on the stored
configuration: a schema failure throws inside the try (caught, 500, nothing
written); a sum off by more than 0.01 returns 400 before any write; otherwise
the weights are stored (update or insert) and the call succeeds.  The result
pairs the stored configuration after the call with the accepted flag. -/
def postWeights (stored : Option TAlgorithmWeights) (w : TAlgorithmWeights) :
    Option TAlgorithmWeights × Bool :=
  if weightsSchemaOk w then
    if |weightsTotal w - 1| > 0.01 then (stored, false)
    else (some w, true)
  else (stored, false)

/-- The per-listing columns the recompute driver selects
(recalculate/route.ts, lines 339-351). -/
structure ListingRow where
  priceEvaluation : Option String
  year : ℤ
  mileage : Option ℤ
  price : ℚ
  fuelType : Option String
deriving Repr

/-- What the driver persists and records for one listing: the `dealScore`
column and the score fields of the serialized `scoreBreakdown`
(recalculate/route.ts, lines 382-419). -/
structure ScoredListing where
  dealScore : ℚ
  priceVsSegment : ℚ
  priceEvaluation : ℚ
  mileageQuality : ℚ
  pricePerKm : ℚ
  priceDropScore : ℚ
  priceDropBonus : ℚ
deriving Repr, DecidableEq

/-- recalculate/route.ts, `POST`, per-listing body (lines 364-421).
`segScore` and `dropScore` are the map lookups
`priceVsSegmentScores.get(listing.id)` and `priceDropScores.get(listing.id)`;
`|| 50` and `|| 0` are JS falsy coalescing, so a stored score of 0 also
falls back to the default. -/
def scoreListing (currentYear : ℤ) (weights : TAlgorithmWeights)
    (listing : ListingRow) (segScore : Option ℤ) (dropScore : Option ℚ) :
    ScoredListing :=
  let components := calculateComponentScores currentYear listing.priceEvaluation
    listing.year listing.mileage listing.price listing.fuelType
  let priceVsSegmentScore := jsOrNum (segScore.map Int.cast) 50
  let priceDropScore := jsOrNum dropScore 0
  let baseScore :=
    priceVsSegmentScore * weights.priceVsSegment +
    components.priceEvaluation * weights.priceEvaluation +
    components.mileageQuality * weights.mileageQuality +
    components.pricePerKm * weights.pricePerKm
  let priceDropBonus := priceDropScore / 100 * 10
  let totalScore := min 100 (baseScore + priceDropBonus)
  { dealScore := round1 totalScore,
    priceVsSegment := priceVsSegmentScore,
    priceEvaluation := components.priceEvaluation,
    mileageQuality := components.mileageQuality,
    pricePerKm := components.pricePerKm,
    priceDropScore := priceDropScore,
    priceDropBonus := priceDropBonus }

/-- recalculate/route.ts, `POST`, the batch loop (lines 357-423) under the
route-level try/catch (lines 334 and 431-437), abstracted over whether the
per-listing `db.update` write throws.  The loop walks the active listings in
order (the `batchSize` slicing of lines 360-362 preserves that order) and
increments `updatedCount` after each successful write; there is no
per-listing catch, so a throwing write propagates to the route-level catch,
which answers 500.  `Except.ok n` is the success response with
`updatedCount = n`; `Except.error k` is the 500 response, `k` recording how
many listings had been written before the abort. -/
def runLoop (writeFails : ℕ → Bool) : ℕ → ℕ → ℕ → Except ℕ ℕ
  | _, updatedCount, 0 => Except.ok updatedCount
  | i, updatedCount, remaining + 1 =>
    if writeFails i then Except.error updatedCount
    else runLoop writeFails (i + 1) (updatedCount + 1) remaining

/-- The whole recompute pass over `numListings` active listings, counting
from the first listing. -/
def runRecalculate (writeFails : ℕ → Bool) (numListings : ℕ) : Except ℕ ℕ :=
  runLoop writeFails 0 0 numListings

/-- The segment-contribution weight as the specification words it: `1.0` when
active, otherwise keyed on `daysSince(lastSeenAt)` with `[0,30] → 1.0`
(negative days also full weight), `(30,60] → 0.75`, `(60,90] → 0.5`, and `0`
beyond 90 days or for a null timestamp. -/
def specContributionWeight (now : ℤ) (isActive : Bool)
    (lastSeenAt : Option ℤ) : ℚ :=
  if isActive then 1
  else
    match lastSeenAt with
    | none => 0
    | some t =>
      let d := daysDiffFloor now t
      if d ≤ 30 then 1
      else if d ≤ 60 then 0.75
      else if d ≤ 90 then 0.5
      else 0

/-- The mileage-quality score exactly as the claim words it: neutral 50 only
when mileage is missing, otherwise the ratio thresholds over
`age = max(1, currentYear - year)` and the fuel-type rate. -/
def claimMileageQualityScore (currentYear : ℤ) (year : ℤ)
    (mileage : Option ℤ) (fuelType : Option String) : ℚ :=
  match mileage with
  | none => 50
  | some m =>
    let age := max 1 (currentYear - year)
    let expectedPerYear :=
      jsOrNum (EXPECTED_MILEAGE_PER_YEAR (jsToLower (jsOrStr fuelType "gasoline"))) 12000
    let ratio := (m : ℚ) / ((age : ℚ) * expectedPerYear)
    if ratio ≤ 0.4 then 100
    else if ratio ≤ 0.6 then 90
    else if ratio ≤ 0.8 then 80
    else if ratio ≤ 1.0 then 70
    else if ratio ≤ 1.2 then 55
    else if ratio ≤ 1.4 then 40
    else if ratio ≤ 1.6 then 25
    else 10

/-- The mileage-quality score as the claim amended to the code: the neutral
50 also covers a zero mileage and a zero year, which JS truthiness treats
like missing values. -/
def claimMileageQualityScoreAmended (currentYear : ℤ) (year : ℤ)
    (mileage : Option ℤ) (fuelType : Option String) : ℚ :=
  match mileage with
  | none => 50
  | some m =>
    if year = 0 ∨ m = 0 then 50
    else claimMileageQualityScore currentYear year (some m) fuelType

end Pechincha

namespace Pechincha

/-! ## Helper lemmas -/

/-- Sums of a mapped list are invariant under the mergeSort permutation. -/
theorem sum_map_mergeSort (l : List (ℚ × ℚ)) (f : ℚ × ℚ → ℚ) :
    ((l.mergeSort (fun a b => a.1 ≤ b.1)).map f).sum = (l.map f).sum :=
  ((List.mergeSort_perm l _).map f).sum_eq

/-- The weighted-percentile score computed by the code coincides with the
sort-free spec formula on every input. -/
theorem weightedPercentile_eq_spec (price : ℚ) (seg : List (ℚ × ℚ)) :
    calculateWeightedPercentile price seg = specPriceVsSegmentScore price seg := by
  by_cases h : seg = []
  · subst h
    simp [calculateWeightedPercentile, specPriceVsSegmentScore]
  · simp only [calculateWeightedPercentile, specPriceVsSegmentScore, if_neg h,
      sum_map_mergeSort]

/-! ## Claims -/

/-- C1.  The price-vs-segment score of a listing equals the spec formula:
sort the (price, weight) pairs, take the weight strictly below the price plus
half the weight exactly equal, divide by total weight for the percentile, and
return `round(100 - percentile)`; and whenever the segment is empty or its
total weight is 0, the score is 50 regardless of the price. -/
theorem priceVsSegment_follows_weighted_percentile (price : ℚ)
    (seg : List (ℚ × ℚ)) :
    calculateWeightedPercentile price seg = specPriceVsSegmentScore price seg ∧
      (seg = [] ∨ (seg.map (fun item => item.2)).sum = 0 →
        calculateWeightedPercentile price seg = 50) := by
  refine ⟨weightedPercentile_eq_spec price seg, fun h => ?_⟩
  rcases h with h | h
  · subst h; simp [calculateWeightedPercentile]
  · rw [weightedPercentile_eq_spec]
    simp [specPriceVsSegmentScore, h]

/-- Witness for C1: a listing priced at 7 against a segment whose entries
have fully decayed to weight 0 scores the neutral 50. -/
theorem priceVsSegment_follows_weighted_percentile_witness :
    calculateWeightedPercentile 7 [(3, 0), (9, 0)] = 50 :=
  (priceVsSegment_follows_weighted_percentile 7 [(3, 0), (9, 0)]).2
    (Or.inr (by norm_num))

/-- C8.  A listing contributes weight 1.0 to its segment when active;
inactive listings decay with `daysSince(lastSeenAt)`: up to 30 days (or a
negative difference) full weight, then 0.75 up to 60, 0.5 up to 90, and 0
beyond 90 days or for a null `lastSeenAt` — and exactly the weight-0 listings
are dropped from the segment entirely. -/
theorem segment_weight_time_decay (now : ℤ) (isActive : Bool)
    (lastSeenAt : Option ℤ) (price : ℚ) :
    contributionWeight now isActive lastSeenAt =
        specContributionWeight now isActive lastSeenAt ∧
      (segmentEntry now isActive lastSeenAt price = none ↔
        contributionWeight now isActive lastSeenAt = 0) := by
  constructor
  · unfold contributionWeight specContributionWeight getTimeDecayWeight
    cases isActive with
    | true => simp
    | false =>
      simp only [if_false, Bool.false_eq_true]
      cases lastSeenAt with
      | none => simp
      | some t =>
        simp only
        split_ifs <;> first | rfl | omega | norm_num
  · unfold segmentEntry
    by_cases h : contributionWeight now isActive lastSeenAt = 0 <;>
      simp [h]

/-- C5.  The market-evaluation component score is 100 for BELOW, 50 for IN,
10 for ABOVE, and 50 for a missing or unrecognized value (the code compares
the uppercased string, so recognition is case-insensitive). -/
theorem marketEvaluation_score_mapping (cy y : ℤ) (m : Option ℤ) (p : ℚ)
    (ft : Option String) (pe : Option String) :
    (pe = some "BELOW" →
      (calculateComponentScores cy pe y m p ft).priceEvaluation = 100) ∧
    (pe = some "IN" →
      (calculateComponentScores cy pe y m p ft).priceEvaluation = 50) ∧
    (pe = some "ABOVE" →
      (calculateComponentScores cy pe y m p ft).priceEvaluation = 10) ∧
    (pe = none →
      (calculateComponentScores cy pe y m p ft).priceEvaluation = 50) ∧
    (∀ s, pe = some s → jsToUpper s ≠ "BELOW" → jsToUpper s ≠ "IN" →
      jsToUpper s ≠ "ABOVE" →
      (calculateComponentScores cy pe y m p ft).priceEvaluation = 50) := by
  have hB : jsToUpper (jsOrStr (some "BELOW") "") = "BELOW" := by decide
  have hI : jsToUpper (jsOrStr (some "IN") "") = "IN" := by decide
  have hA : jsToUpper (jsOrStr (some "ABOVE") "") = "ABOVE" := by decide
  have hN : jsToUpper (jsOrStr none "") = "" := by decide
  refine ⟨?_, ?_, ?_, ?_, ?_⟩
  · rintro rfl; simp [calculateComponentScores, priceEvaluationScore, hB]
  · rintro rfl; simp [calculateComponentScores, priceEvaluationScore, hI]
  · rintro rfl; simp [calculateComponentScores, priceEvaluationScore, hA]
  · rintro rfl; simp [calculateComponentScores, priceEvaluationScore, hN]
  · rintro s rfl h1 h2 h3
    by_cases hs : s = ""
    · subst hs
      have hE : jsToUpper (jsOrStr (some "") "") = "" := by decide
      simp [calculateComponentScores, priceEvaluationScore, hE]
    · have hv : jsOrStr (some s) "" = s := by simp [jsOrStr, hs]
      simp [calculateComponentScores, priceEvaluationScore, hv, h1, h2, h3]

/-- Witness for C5: a BELOW evaluation scores 100. -/
theorem marketEvaluation_score_mapping_witness :
    (calculateComponentScores 2026 (some "BELOW") 2020 (some 60000) 10000
      (some "diesel")).priceEvaluation = 100 :=
  (marketEvaluation_score_mapping 2026 2020 (some 60000) 10000 (some "diesel")
    (some "BELOW")).1 rfl

/-- C6.  The price-drop bonus is 0 with fewer than 2 history records and
whenever the most recent change percentage is nonnegative; otherwise it is
tiered on the drop magnitude and the days since the most recent record
(30 when that timestamp is missing).  The positivity of the previous price
marks the domain on which the rational embedding matches JS numbers. -/
theorem priceDrop_bonus_tiers (now : ℤ) (c p : ℚ) (t0 t1 : Option ℤ)
    (rest : List (ℚ × Option ℤ)) (_hp : 0 < p) :
    (∀ l : List (ℚ × Option ℤ), l.length < 2 →
      calculatePriceDropScore now l = 0) ∧
    (0 ≤ (c - p) / p * 100 →
      calculatePriceDropScore now ((c, t0) :: (p, t1) :: rest) = 0) ∧
    ((c - p) / p * 100 < 0 →
      calculatePriceDropScore now ((c, t0) :: (p, t1) :: rest) =
        (let dropPercent := |(c - p) / p * 100|
         let daysSinceChange := t0.elim 30 (daysDiffFloor now)
         if dropPercent ≥ 20 ∧ daysSinceChange ≤ 7 then 100
         else if dropPercent ≥ 10 ∧ daysSinceChange ≤ 14 then 80
         else if dropPercent ≥ 5 ∧ daysSinceChange ≤ 30 then 60
         else if dropPercent > 0 ∧ daysSinceChange ≤ 30 then 40
         else 0)) := by
  refine ⟨?_, ?_, ?_⟩
  · intro l hl
    match l with
    | [] => rfl
    | [a] => rfl
    | a :: b :: r => simp at hl; omega
  · intro h
    simp [calculatePriceDropScore, h]
  · intro h
    simp only [calculatePriceDropScore]
    rw [if_neg (not_le.mpr h)]
    cases t0 <;> rfl

/-- Witness for C6: records [100 then 80] (most recent first) recorded 3 days
after the drop yield the top tier score 100. -/
theorem priceDrop_bonus_tiers_witness :
    calculatePriceDropScore (3 * 86400000) [(80, some 0), (100, none)] = 100 := by
  have h := (priceDrop_bonus_tiers (3 * 86400000) 80 100 (some 0) none []
    (by norm_num)).2.2 (by norm_num)
  have hd : daysDiffFloor 259200000 0 = 3 := by decide
  rw [h]
  norm_num [hd]

/-- Positivity of the expected-mileage rate for every fuel string. -/
theorem expectedPerYear_pos (f : String) :
    0 < jsOrNum (EXPECTED_MILEAGE_PER_YEAR f) 12000 := by
  unfold EXPECTED_MILEAGE_PER_YEAR
  split_ifs <;> simp [jsOrNum]

/-- C7 counterexample: a listing with a present but zero mileage.  The code
treats the falsy 0 like a missing mileage and scores the neutral 50, while
the claim's formula maps its ratio 0 to the top score 100. -/
theorem mileageQuality_zero_mileage_counterexample :
    (calculateComponentScores 2026 none 2020 (some 0) 10000
        (some "gasoline")).mileageQuality = 50 ∧
      claimMileageQualityScore 2026 2020 (some 0) (some "gasoline") = 100 := by
  constructor
  · simp [calculateComponentScores, mileageQualityScore]
  · have hg : jsToLower (jsOrStr (some "gasoline") "gasoline") = "gasoline" := by
      decide
    norm_num [claimMileageQualityScore, hg, EXPECTED_MILEAGE_PER_YEAR, jsOrNum]

/-- C7 (amended).  The mileage-quality score is 50 whenever mileage is
missing or zero or the year is zero (JS truthiness); otherwise it maps
`mileage / (max(1, currentYear - year) * expectedPerYear)` through the
ascending thresholds, with the fuel-type table rate and the gasoline default
for unknown fuel types. -/
theorem mileageQuality_score_thresholds (cy : ℤ) (pe : Option String) (y : ℤ)
    (m : Option ℤ) (p : ℚ) (ft : Option String) :
    (calculateComponentScores cy pe y m p ft).mileageQuality =
      claimMileageQualityScoreAmended cy y m ft := by
  rcases m with _ | m
  · simp [calculateComponentScores, mileageQualityScore,
      claimMileageQualityScoreAmended]
  · by_cases h : y = 0 ∨ m = 0
    · have h2 : ¬(y ≠ 0 ∧ m ≠ 0) := by tauto
      simp only [calculateComponentScores, mileageQualityScore,
        claimMileageQualityScoreAmended, if_neg h2, if_pos h]
    · have h2 : y ≠ 0 ∧ m ≠ 0 := by tauto
      have hpos : (0 : ℚ) <
          (max 1 (cy - y) : ℤ) *
            jsOrNum (EXPECTED_MILEAGE_PER_YEAR (jsToLower (jsOrStr ft "gasoline"))) 12000 := by
        apply mul_pos
        · exact_mod_cast lt_of_lt_of_le zero_lt_one (le_max_left 1 (cy - y))
        · exact expectedPerYear_pos _
      simp only [calculateComponentScores, mileageQualityScore,
        claimMileageQualityScoreAmended, claimMileageQualityScore, if_pos h2,
        if_neg h, if_pos hpos]

/-! ## Field equations of the per-listing scoring step -/

theorem scoreListing_priceVsSegment (cy : ℤ) (w : TAlgorithmWeights)
    (l : ListingRow) (s : Option ℤ) (d : Option ℚ) :
    (scoreListing cy w l s d).priceVsSegment =
      jsOrNum (s.map Int.cast) 50 := rfl

theorem scoreListing_priceEvaluation (cy : ℤ) (w : TAlgorithmWeights)
    (l : ListingRow) (s : Option ℤ) (d : Option ℚ) :
    (scoreListing cy w l s d).priceEvaluation =
      (calculateComponentScores cy l.priceEvaluation l.year l.mileage l.price
        l.fuelType).priceEvaluation := rfl

theorem scoreListing_mileageQuality (cy : ℤ) (w : TAlgorithmWeights)
    (l : ListingRow) (s : Option ℤ) (d : Option ℚ) :
    (scoreListing cy w l s d).mileageQuality =
      (calculateComponentScores cy l.priceEvaluation l.year l.mileage l.price
        l.fuelType).mileageQuality := rfl

theorem scoreListing_pricePerKm (cy : ℤ) (w : TAlgorithmWeights)
    (l : ListingRow) (s : Option ℤ) (d : Option ℚ) :
    (scoreListing cy w l s d).pricePerKm =
      (calculateComponentScores cy l.priceEvaluation l.year l.mileage l.price
        l.fuelType).pricePerKm := rfl

theorem scoreListing_priceDropScore (cy : ℤ) (w : TAlgorithmWeights)
    (l : ListingRow) (s : Option ℤ) (d : Option ℚ) :
    (scoreListing cy w l s d).priceDropScore = jsOrNum d 0 := rfl

theorem scoreListing_priceDropBonus (cy : ℤ) (w : TAlgorithmWeights)
    (l : ListingRow) (s : Option ℤ) (d : Option ℚ) :
    (scoreListing cy w l s d).priceDropBonus = jsOrNum d 0 / 100 * 10 := rfl

theorem scoreListing_dealScore (cy : ℤ) (w : TAlgorithmWeights)
    (l : ListingRow) (s : Option ℤ) (d : Option ℚ) :
    (scoreListing cy w l s d).dealScore =
      round1 (min 100
        ((scoreListing cy w l s d).priceVsSegment * w.priceVsSegment +
          (scoreListing cy w l s d).priceEvaluation * w.priceEvaluation +
          (scoreListing cy w l s d).mileageQuality * w.mileageQuality +
          (scoreListing cy w l s d).pricePerKm * w.pricePerKm +
          (scoreListing cy w l s d).priceDropBonus)) := rfl

/-- C3.  The persisted total equals `round(min(100, base + bonus), 1 decimal)`
with `base` the weighted sum of the four unrounded component scores and the
bonus `bonusScore / 100 * 10` added after the weighting, not as a fifth
weighted component. -/
theorem dealScore_blend_formula (cy : ℤ) (w : TAlgorithmWeights)
    (l : ListingRow) (segScore : Option ℤ) (dropScore : Option ℚ) :
    (scoreListing cy w l segScore dropScore).dealScore =
      round1 (min 100
        ((scoreListing cy w l segScore dropScore).priceVsSegment *
            w.priceVsSegment +
          (scoreListing cy w l segScore dropScore).priceEvaluation *
            w.priceEvaluation +
          (scoreListing cy w l segScore dropScore).mileageQuality *
            w.mileageQuality +
          (scoreListing cy w l segScore dropScore).pricePerKm * w.pricePerKm +
          (scoreListing cy w l segScore dropScore).priceDropScore / 100 * 10)) :=
  rfl

/-- A segment in which a listing priced at the top scores exactly 0: the
weight below is 199.5 of 200, the percentile 99.75, and
`round(100 - 99.75) = 0`. -/
theorem percentile_zero_example :
    calculateWeightedPercentile 2 [(1, 199), (2, 1)] = 0 := by
  rw [weightedPercentile_eq_spec]
  norm_num [specPriceVsSegmentScore, jround]

/-- C10.  When the weighted-percentile computation yields exactly 0, the
driver's falsy-coalescing lookup `score || 50` substitutes the neutral 50
everywhere the component is used (wholesale: the scored listing is the one a
stored 50 would give, so both the blended base and the persisted breakdown
see 50), and the priceVsSegment component entering the persisted record is
never 0. -/
theorem zero_percentile_coalesces_to_neutral (cy : ℤ) (w : TAlgorithmWeights)
    (l : ListingRow) (dropScore : Option ℚ) (price : ℚ)
    (seg : List (ℚ × ℚ)) :
    (calculateWeightedPercentile price seg = 0 →
      scoreListing cy w l (some (calculateWeightedPercentile price seg))
          dropScore =
        scoreListing cy w l (some 50) dropScore) ∧
    (∀ segScore : Option ℤ,
      (scoreListing cy w l segScore dropScore).priceVsSegment ≠ 0) := by
  constructor
  · intro h
    rw [h]
    simp [scoreListing, jsOrNum]
  · intro segScore
    rcases segScore with _ | v
    · simp [scoreListing_priceVsSegment, jsOrNum]
    · by_cases hv : (v : ℚ) = 0 <;>
        simp [scoreListing_priceVsSegment, jsOrNum, hv]

/-- Witness for C10: the listing at the top of the 200-weight segment of
`percentile_zero_example` is scored exactly as if its stored score were the
neutral 50. -/
theorem zero_percentile_coalesces_to_neutral_witness :
    scoreListing 2026 DEFAULT_WEIGHTS
        ⟨none, 2020, some 60000, 10000, none⟩
        (some (calculateWeightedPercentile 2 [(1, 199), (2, 1)])) (some 0) =
      scoreListing 2026 DEFAULT_WEIGHTS ⟨none, 2020, some 60000, 10000, none⟩
        (some 50) (some 0) :=
  (zero_percentile_coalesces_to_neutral 2026 DEFAULT_WEIGHTS
    ⟨none, 2020, some 60000, 10000, none⟩ (some 0) 2 [(1, 199), (2, 1)]).1
    percentile_zero_example

/-- C9.  A schema-valid weights update is rejected exactly when the four
fractions sum to more than 0.01 away from 1, and a rejected update leaves the
stored configuration unchanged. -/
theorem weights_update_tolerance (stored : Option TAlgorithmWeights)
    (w : TAlgorithmWeights) (hw : weightsSchemaOk w) :
    ((postWeights stored w).2 = false ↔ |weightsTotal w - 1| > 0.01) ∧
      ((postWeights stored w).2 = false →
        (postWeights stored w).1 = stored) := by
  unfold postWeights
  rw [if_pos hw]
  by_cases h : |weightsTotal w - 1| > 0.01
  · simp [h]
  · simp [h]

/-- Witness for C9: the sum 0.99 sits exactly at the tolerance boundary and
is accepted. -/
theorem weights_update_tolerance_witness :
    weightsSchemaOk ⟨0.24, 0.25, 0.25, 0.25⟩ ∧
      (postWeights none ⟨0.24, 0.25, 0.25, 0.25⟩).2 = true := by
  have hw : weightsSchemaOk ⟨0.24, 0.25, 0.25, 0.25⟩ := by
    unfold weightsSchemaOk
    norm_num
  refine ⟨hw, ?_⟩
  have h := (weights_update_tolerance none ⟨0.24, 0.25, 0.25, 0.25⟩ hw).1
  have habs : ¬(|weightsTotal ⟨0.24, 0.25, 0.25, 0.25⟩ - 1| > 0.01) := by
    have hval : weightsTotal ⟨0.24, 0.25, 0.25, 0.25⟩ - 1 = -(0.01) := by
      norm_num [weightsTotal]
    rw [hval, abs_neg, abs_of_nonneg (by norm_num)]
    norm_num
  cases hb : (postWeights none ⟨0.24, 0.25, 0.25, 0.25⟩).2 with
  | false => exact absurd (h.mp hb) habs
  | true => rfl

/-! ## The driver loop under write failures -/

/-- When no write among the next `k` fails, the loop finishes and counts all
of them. -/
theorem runLoop_all_ok (f : ℕ → Bool) :
    ∀ (k i c : ℕ), (∀ j, j < k → f (i + j) = false) →
      runLoop f i c k = Except.ok (c + k) := by
  intro k
  induction k with
  | zero => intro i c _; simp [runLoop]
  | succ n ih =>
    intro i c h
    have h0 : f i = false := by simpa using h 0 (Nat.succ_pos n)
    rw [runLoop, if_neg (by simp [h0])]
    rw [ih (i + 1) (c + 1) fun j hj => ?_]
    · congr 1
      omega
    · rw [show i + 1 + j = i + (j + 1) from by omega]
      exact h (j + 1) (by omega)

/-- The first failing write aborts the loop: the error propagates with
exactly the preceding successes committed. -/
theorem runLoop_first_fail (f : ℕ → Bool) :
    ∀ (k i c j0 : ℕ), j0 < k → f (i + j0) = true →
      (∀ j, j < j0 → f (i + j) = false) →
      runLoop f i c k = Except.error (c + j0) := by
  intro k
  induction k with
  | zero => intro i c j0 h; omega
  | succ n ih =>
    intro i c j0 hj0 hf hprev
    cases j0 with
    | zero =>
      have h0 : f i = true := by simpa using hf
      rw [runLoop, if_pos (by simp [h0])]
      congr 1
    | succ j =>
      have h0 : f i = false := by simpa using hprev 0 (Nat.succ_pos j)
      rw [runLoop, if_neg (by simp [h0])]
      rw [ih (i + 1) (c + 1) j (by omega) ?_ fun j2 hj2 => ?_]
      · congr 1
        omega
      · rw [show i + 1 + j = i + (j + 1) from by omega]
        exact hf
      · rw [show i + 1 + j2 = i + (j2 + 1) from by omega]
        exact hprev (j2 + 1) (by omega)

/-- C4 counterexample: 10,000 active listings with the single storage
failure on listing #5000 (index 4999).  The run aborts at the failing write,
having committed only the 4999 preceding updates, and answers the 500 error
response — not the success response with `updatedCount = 9999` the claim
asserts. -/
theorem recompute_single_failure_counterexample :
    runRecalculate (fun i => i == 4999) 10000 = Except.error 4999 ∧
      runRecalculate (fun i => i == 4999) 10000 ≠ Except.ok 9999 := by
  have h := runLoop_first_fail (fun i => i == 4999) 10000 0 0 4999
    (by omega) (by simp)
    (fun j hj => by
      simp only [beq_eq_false_iff_ne]
      omega)
  have he : runRecalculate (fun i => i == 4999) 10000 = Except.error 4999 := by
    simpa [runRecalculate] using h
  exact ⟨he, by rw [he]; simp⟩

/-- C4 (amended).  There is no per-listing catch in the recompute loop: when
every write succeeds the run answers success with `updatedCount` equal to
the number of active listings, but the first failing write aborts the whole
run — only the earlier listings stay committed, and the route answers its
500 error response with no `updatedCount`. -/
theorem recompute_write_failure_aborts (writeFails : ℕ → Bool) (n k : ℕ) :
    ((∀ i, i < n → writeFails i = false) →
      runRecalculate writeFails n = Except.ok n) ∧
    (k < n → writeFails k = true → (∀ i, i < k → writeFails i = false) →
      runRecalculate writeFails n = Except.error k) := by
  constructor
  · intro h
    have := runLoop_all_ok writeFails n 0 0 fun j hj => by
      simpa using h j hj
    simpa [runRecalculate] using this
  · intro hk hf hprev
    have := runLoop_first_fail writeFails n 0 0 k hk (by simpa using hf)
      fun j hj => by simpa using hprev j hj
    simpa [runRecalculate] using this

/-- Witness for C4: a 3-listing run with no write failure reports
`updatedCount = 3`. -/
theorem recompute_write_failure_aborts_witness :
    runRecalculate (fun _ => false) 3 = Except.ok 3 :=
  (recompute_write_failure_aborts (fun _ => false) 3 0).1 fun _ _ => rfl

/-! ## Range bounds -/

/-- `Math.round` keeps a value of `[0, b]` within `[0, b]`. -/
theorem jround_bounds {x : ℚ} {b : ℤ} (h0 : 0 ≤ x) (h1 : x ≤ (b : ℚ)) :
    0 ≤ jround x ∧ jround x ≤ b := by
  unfold jround
  constructor
  · exact Int.le_floor.mpr (by push_cast; linarith)
  · have hlt : ⌊x + 1 / 2⌋ < b + 1 := Int.floor_lt.mpr (by push_cast; linarith)
    omega

/-- Rounding to one decimal keeps a value of `[0, 100]` within `[0, 100]`. -/
theorem round1_bounds {x : ℚ} (h0 : 0 ≤ x) (h1 : x ≤ 100) :
    0 ≤ round1 x ∧ round1 x ≤ 100 := by
  unfold round1
  obtain ⟨ha, hb⟩ := jround_bounds (x := x * 10) (b := 1000) (by linarith)
    (by push_cast; linarith)
  constructor
  · have : (0 : ℚ) ≤ (jround (x * 10) : ℚ) := by exact_mod_cast ha
    linarith
  · rw [div_le_iff₀ (by norm_num)]
    have : (jround (x * 10) : ℚ) ≤ 1000 := by exact_mod_cast hb
    linarith

/-- With nonnegative weights the spec percentile score stays in `[0, 100]`. -/
theorem specPriceVsSegmentScore_bounds (price : ℚ) (seg : List (ℚ × ℚ))
    (hseg : ∀ e ∈ seg, 0 ≤ e.2) :
    0 ≤ specPriceVsSegmentScore price seg ∧
      specPriceVsSegmentScore price seg ≤ 100 := by
  unfold specPriceVsSegmentScore
  by_cases h : (seg.map fun item => item.2).sum = 0
  · rw [if_pos h]
    norm_num
  · rw [if_neg h]
    have hT0 : 0 ≤ (seg.map fun item => item.2).sum := by
      apply List.sum_nonneg
      intro x hx
      rw [List.mem_map] at hx
      obtain ⟨e, he, rfl⟩ := hx
      exact hseg e he
    have hTpos : 0 < (seg.map fun item => item.2).sum :=
      lt_of_le_of_ne hT0 (Ne.symm h)
    have hB0 : 0 ≤ (seg.map fun item =>
        if item.1 < price then item.2
        else if item.1 = price then item.2 / 2 else 0).sum := by
      apply List.sum_nonneg
      intro x hx
      rw [List.mem_map] at hx
      obtain ⟨e, he, rfl⟩ := hx
      have := hseg e he
      split_ifs <;> linarith
    have hBT : (seg.map fun item =>
        if item.1 < price then item.2
        else if item.1 = price then item.2 / 2 else 0).sum ≤
        (seg.map fun item => item.2).sum := by
      apply List.sum_le_sum
      intro e he
      have := hseg e he
      split_ifs <;> linarith
    have hdiv1 : (seg.map fun item =>
        if item.1 < price then item.2
        else if item.1 = price then item.2 / 2 else 0).sum /
        (seg.map fun item => item.2).sum ≤ 1 := (div_le_one hTpos).mpr hBT
    have hdiv0 : 0 ≤ (seg.map fun item =>
        if item.1 < price then item.2
        else if item.1 = price then item.2 / 2 else 0).sum /
        (seg.map fun item => item.2).sum := div_nonneg hB0 hT0
    exact jround_bounds (b := 100) (by nlinarith) (by push_cast; nlinarith)

/-- The market-evaluation score block stays in `[0, 100]`. -/
theorem priceEvaluationScore_bounds (pe : Option String) :
    0 ≤ priceEvaluationScore pe ∧ priceEvaluationScore pe ≤ 100 := by
  simp only [priceEvaluationScore]
  split_ifs <;> norm_num

/-- The mileage-quality score block stays in `[0, 100]`. -/
theorem mileageQualityScore_bounds (cy y : ℤ) (m : Option ℤ)
    (ft : Option String) :
    0 ≤ mileageQualityScore cy y m ft ∧
      mileageQualityScore cy y m ft ≤ 100 := by
  rcases m with _ | m
  · norm_num [mileageQualityScore]
  · simp only [mileageQualityScore]
    split_ifs <;> norm_num

/-- The price-per-km score block stays in `[0, 100]`. -/
theorem pricePerKmScore_bounds (p : ℚ) (m : Option ℤ) :
    0 ≤ pricePerKmScore p m ∧ pricePerKmScore p m ≤ 100 := by
  rcases m with _ | m
  · norm_num [pricePerKmScore]
  · simp only [pricePerKmScore]
    split_ifs <;> norm_num

/-- Each of the three per-listing component scores lies in `[0, 100]`. -/
theorem componentScores_bounds (cy : ℤ) (pe : Option String) (y : ℤ)
    (m : Option ℤ) (p : ℚ) (ft : Option String) :
    (0 ≤ (calculateComponentScores cy pe y m p ft).priceEvaluation ∧
        (calculateComponentScores cy pe y m p ft).priceEvaluation ≤ 100) ∧
      (0 ≤ (calculateComponentScores cy pe y m p ft).mileageQuality ∧
        (calculateComponentScores cy pe y m p ft).mileageQuality ≤ 100) ∧
      (0 ≤ (calculateComponentScores cy pe y m p ft).pricePerKm ∧
        (calculateComponentScores cy pe y m p ft).pricePerKm ≤ 100) := by
  exact ⟨priceEvaluationScore_bounds pe,
    mileageQualityScore_bounds cy y m ft, pricePerKmScore_bounds p m⟩

/-- The price-drop bonus score lies in `[0, 100]` (its values are the tier
constants 0, 40, 60, 80, 100). -/
theorem priceDropScore_bounds (now : ℤ) (prices : List (ℚ × Option ℤ)) :
    0 ≤ calculatePriceDropScore now prices ∧
      calculatePriceDropScore now prices ≤ 100 := by
  rcases prices with _ | ⟨⟨c, t0⟩, _ | ⟨⟨p2, t1⟩, r⟩⟩
  · norm_num [calculatePriceDropScore]
  · norm_num [calculatePriceDropScore]
  · simp only [calculatePriceDropScore]
    split_ifs <;> norm_num

/-- C2.  For every listing and every weight configuration the weights
endpoint accepts (schema-valid, sum within 0.01 of 1), the four component
scores fed into the blend, the persisted dealScore, and the price-drop bonus
all stay in range: components and dealScore within `[0, 100]`, the additive
bonus within `[0, 10]` before the final clamp.  The segment entries carry
the nonnegative decay weights. -/
theorem scores_and_dealScore_in_range (cy : ℤ) (w : TAlgorithmWeights)
    (l : ListingRow) (price : ℚ) (seg : List (ℚ × ℚ)) (now : ℤ)
    (hist : List (ℚ × Option ℤ)) (hw : weightsSchemaOk w)
    (_hsum : |weightsTotal w - 1| ≤ 0.01) (hseg : ∀ e ∈ seg, 0 ≤ e.2) :
    (0 ≤ (scoreListing cy w l (some (calculateWeightedPercentile price seg))
          (some (calculatePriceDropScore now hist))).priceVsSegment ∧
        (scoreListing cy w l (some (calculateWeightedPercentile price seg))
          (some (calculatePriceDropScore now hist))).priceVsSegment ≤ 100) ∧
      (0 ≤ (scoreListing cy w l (some (calculateWeightedPercentile price seg))
          (some (calculatePriceDropScore now hist))).priceEvaluation ∧
        (scoreListing cy w l (some (calculateWeightedPercentile price seg))
          (some (calculatePriceDropScore now hist))).priceEvaluation ≤ 100) ∧
      (0 ≤ (scoreListing cy w l (some (calculateWeightedPercentile price seg))
          (some (calculatePriceDropScore now hist))).mileageQuality ∧
        (scoreListing cy w l (some (calculateWeightedPercentile price seg))
          (some (calculatePriceDropScore now hist))).mileageQuality ≤ 100) ∧
      (0 ≤ (scoreListing cy w l (some (calculateWeightedPercentile price seg))
          (some (calculatePriceDropScore now hist))).pricePerKm ∧
        (scoreListing cy w l (some (calculateWeightedPercentile price seg))
          (some (calculatePriceDropScore now hist))).pricePerKm ≤ 100) ∧
      (0 ≤ (scoreListing cy w l (some (calculateWeightedPercentile price seg))
          (some (calculatePriceDropScore now hist))).dealScore ∧
        (scoreListing cy w l (some (calculateWeightedPercentile price seg))
          (some (calculatePriceDropScore now hist))).dealScore ≤ 100) ∧
      (0 ≤ (scoreListing cy w l (some (calculateWeightedPercentile price seg))
          (some (calculatePriceDropScore now hist))).priceDropBonus ∧
        (scoreListing cy w l (some (calculateWeightedPercentile price seg))
          (some (calculatePriceDropScore now hist))).priceDropBonus ≤ 10) := by
  obtain ⟨hw1, hw2, hw3, hw4⟩ := hw
  obtain ⟨hc1, hc2, hc3⟩ := componentScores_bounds cy l.priceEvaluation l.year
    l.mileage l.price l.fuelType
  obtain ⟨hd0, hd1⟩ := priceDropScore_bounds now hist
  have hwp : (0 : ℤ) ≤ calculateWeightedPercentile price seg ∧
      calculateWeightedPercentile price seg ≤ 100 := by
    rw [weightedPercentile_eq_spec]
    exact specPriceVsSegmentScore_bounds price seg hseg
  have hpvs : 0 ≤ (scoreListing cy w l
        (some (calculateWeightedPercentile price seg))
        (some (calculatePriceDropScore now hist))).priceVsSegment ∧
      (scoreListing cy w l (some (calculateWeightedPercentile price seg))
        (some (calculatePriceDropScore now hist))).priceVsSegment ≤ 100 := by
    rw [scoreListing_priceVsSegment]
    simp only [Option.map_some', jsOrNum]
    split_ifs
    · norm_num
    · constructor
      · exact_mod_cast hwp.1
      · exact_mod_cast hwp.2
  have hdrop : 0 ≤ (scoreListing cy w l
        (some (calculateWeightedPercentile price seg))
        (some (calculatePriceDropScore now hist))).priceDropScore ∧
      (scoreListing cy w l (some (calculateWeightedPercentile price seg))
        (some (calculatePriceDropScore now hist))).priceDropScore ≤ 100 := by
    rw [scoreListing_priceDropScore]
    simp only [jsOrNum]
    split_ifs
    · norm_num
    · exact ⟨hd0, hd1⟩
  have hbonus : 0 ≤ (scoreListing cy w l
        (some (calculateWeightedPercentile price seg))
        (some (calculatePriceDropScore now hist))).priceDropBonus ∧
      (scoreListing cy w l (some (calculateWeightedPercentile price seg))
        (some (calculatePriceDropScore now hist))).priceDropBonus ≤ 10 := by
    have heq : (scoreListing cy w l
        (some (calculateWeightedPercentile price seg))
        (some (calculatePriceDropScore now hist))).priceDropBonus =
        (scoreListing cy w l (some (calculateWeightedPercentile price seg))
          (some (calculatePriceDropScore now hist))).priceDropScore /
          100 * 10 := rfl
    rw [heq]
    constructor
    · have := hdrop.1
      positivity
    · have := hdrop.2
      linarith
  have hbase : 0 ≤ (scoreListing cy w l
        (some (calculateWeightedPercentile price seg))
        (some (calculatePriceDropScore now hist))).priceVsSegment *
          w.priceVsSegment +
        (scoreListing cy w l (some (calculateWeightedPercentile price seg))
          (some (calculatePriceDropScore now hist))).priceEvaluation *
          w.priceEvaluation +
        (scoreListing cy w l (some (calculateWeightedPercentile price seg))
          (some (calculatePriceDropScore now hist))).mileageQuality *
          w.mileageQuality +
        (scoreListing cy w l (some (calculateWeightedPercentile price seg))
          (some (calculatePriceDropScore now hist))).pricePerKm *
          w.pricePerKm := by
    rw [scoreListing_priceEvaluation, scoreListing_mileageQuality,
      scoreListing_pricePerKm]
    have m1 := mul_nonneg hpvs.1 hw1.1
    have m2 := mul_nonneg hc1.1 hw2.1
    have m3 := mul_nonneg hc2.1 hw3.1
    have m4 := mul_nonneg hc3.1 hw4.1
    rw [scoreListing_priceVsSegment] at m1 ⊢
    linarith
  have hdeal : 0 ≤ (scoreListing cy w l
        (some (calculateWeightedPercentile price seg))
        (some (calculatePriceDropScore now hist))).dealScore ∧
      (scoreListing cy w l (some (calculateWeightedPercentile price seg))
        (some (calculatePriceDropScore now hist))).dealScore ≤ 100 := by
    rw [scoreListing_dealScore]
    exact round1_bounds
      (le_min (by norm_num) (by linarith [hbonus.1, hbase]))
      (min_le_left _ _)
  exact ⟨hpvs,
    ⟨by rw [scoreListing_priceEvaluation]; exact hc1.1,
     by rw [scoreListing_priceEvaluation]; exact hc1.2⟩,
    ⟨by rw [scoreListing_mileageQuality]; exact hc2.1,
     by rw [scoreListing_mileageQuality]; exact hc2.2⟩,
    ⟨by rw [scoreListing_pricePerKm]; exact hc3.1,
     by rw [scoreListing_pricePerKm]; exact hc3.2⟩,
    hdeal, hbonus⟩

/-- Witness for C2: a concrete diesel listing under the default weights, with
a two-entry segment and no price history, has its persisted dealScore within
`[0, 100]`. -/
theorem scores_and_dealScore_in_range_witness :
    0 ≤ (scoreListing 2026 DEFAULT_WEIGHTS
        ⟨some "BELOW", 2020, some 60000, 10000, some "diesel"⟩
        (some (calculateWeightedPercentile 10000 [(8000, 1), (15000, 1)]))
        (some (calculatePriceDropScore 0 []))).dealScore ∧
      (scoreListing 2026 DEFAULT_WEIGHTS
        ⟨some "BELOW", 2020, some 60000, 10000, some "diesel"⟩
        (some (calculateWeightedPercentile 10000 [(8000, 1), (15000, 1)]))
        (some (calculatePriceDropScore 0 []))).dealScore ≤ 100 :=
  (scores_and_dealScore_in_range 2026 DEFAULT_WEIGHTS
    ⟨some "BELOW", 2020, some 60000, 10000, some "diesel"⟩ 10000
    [(8000, 1), (15000, 1)] 0 []
    (by unfold weightsSchemaOk DEFAULT_WEIGHTS; norm_num)
    (by rw [show weightsTotal DEFAULT_WEIGHTS - 1 = 0 from by
          norm_num [weightsTotal, DEFAULT_WEIGHTS]]
        norm_num)
    (by intro e he
        simp only [List.mem_cons, List.not_mem_nil, or_false] at he
        rcases he with rfl | rfl <;> norm_num)).2.2.2.2.1

end Pechincha
